import Mathlib

/-!
Verification of the hybrid local/cloud progress-sync core of the
business-startup guide: a shallow embedding of
`src/scripts/enhanced-state-manager.js` and `src/scripts/sync-manager.js`,
with theorems about the merge, migration, load, import/export, debounce,
retry and reset logic.

Conventions of the embedding:
* JS epoch-millisecond timestamps are `Nat`; every `Date.now()` call site
  takes the current time as an explicit `now` argument.  Real timestamps are
  positive, so the JS falsiness test `!t` on a possibly-null timestamp is
  modelled as `Option.isNone`.
* JS objects used as string-to-boolean maps (the step-completion map) are
  association lists; lookup returns the first binding, and object spread is
  modelled by putting the overriding bindings first.
* Operations the source guards with try/catch return `Option`, `none` being
  the caught-exception path.
-/

namespace BizGuide

/-- Content fields of the user's ProgressRecord
(`enhanced-state-manager.js`, `loadDefaultState`, lines 54-69). -/
structure ContentRecord where
  province : String
  industry : String
  hiring : String
  revenue : String
  completed : List (String × Bool)
deriving DecidableEq

/-- The `_meta` sync metadata attached to the state (lines 62-67). -/
structure SyncMeta where
  lastModified : Nat
  version : Nat
  syncedAt : Option Nat
  hasLocalChanges : Bool
deriving DecidableEq

/-- The state manager's `this.state`: content fields plus `_meta`. -/
structure AppState where
  content : ContentRecord
  meta : SyncMeta
deriving DecidableEq

/-- JS `a || b` on strings: the empty string is the only falsy string. -/
def jsOr (a b : String) : String := if a = "" then b else a

/-- JS `getItem(k) || d`: `getItem` yields null (`none`) for an absent key. -/
def jsOrOpt (s : Option String) (d : String) : String := jsOr (s.getD "") d

/-- Lookup in a JS object modelled as an association list: the first binding
for the key wins. -/
def objLookup (m : List (String × Bool)) (k : String) : Option Bool :=
  (m.find? (fun p => p.1 == k)).map (fun p => p.2)

/-- JS object spread where the second object's bindings shadow the first's,
modelled extensionally for `objLookup` by putting the overriding bindings
first. -/
def objSpread (base override : List (String × Bool)) : List (String × Bool) :=
  override ++ base

/-- JS property assignment `completed[key] = b`: replace the binding if the
key is present, otherwise append it. -/
def objSet : List (String × Bool) → String → Bool → List (String × Bool)
  | [], k, b => [(k, b)]
  | (k', b') :: rest, k, b =>
      if k' == k then (k, b) :: rest else (k', b') :: objSet rest k b

/-- The default content record (`loadDefaultState`, lines 54-69). -/
def defaultContent : ContentRecord :=
  { province := "", industry := "general", hiring := "no", revenue := "gte30",
    completed := [] }

/-- `loadDefaultState` (lines 54-69); `now` is the `Date.now()` stamped into
`_meta.lastModified`. -/
def loadDefaultState (now : Nat) : AppState :=
  { content := defaultContent,
    meta := { lastModified := now, version := 1, syncedAt := none,
              hasLocalChanges := false } }

/-- The completion-map part of the merge strategy
(`sync-manager.js`, `mergeLocalAndCloudData`, lines 219-222):
`completed: { ...cloudProgress.completed, ...localState.completed }`. -/
def mergeCompleted (cloudCompleted localCompleted : List (String × Bool)) :
    List (String × Bool) :=
  objSpread cloudCompleted localCompleted

/-- A cloud progress row as consumed by the client: content fields,
`updated_at` already converted to epoch milliseconds by
`new Date(...).getTime()`, and the server-maintained version.  `completed` is
optional because the client guards it with `cloudProgress.completed || {}`. -/
structure CloudRow where
  province : String
  industry : String
  hiring : String
  revenue : String
  completed : Option (List (String × Bool))
  updated_at : Nat
  version : Nat
deriving DecidableEq

/-- `syncFromCloud` in the branch where a cloud row exists
(`enhanced-state-manager.js` lines 150-178).  In the overwrite branch the
source then runs `persistLocal` (which restamps `_meta.lastModified` with
`Date.now()` and sets the dirty flag) and finally clears `hasLocalChanges`;
the storage write and the debounce timer `persistLocal` arms are irrelevant
to the resulting state and omitted here. -/
def syncFromCloudWithRow (s : AppState) (row : CloudRow) (now : Nat) : AppState :=
  if row.updated_at > s.meta.lastModified ∨ s.meta.syncedAt = none then
    { content := { province := row.province, industry := row.industry,
                   hiring := row.hiring, revenue := row.revenue,
                   completed := row.completed.getD [] },
      meta := { lastModified := now, version := row.version,
                syncedAt := now, hasLocalChanges := false } }
  else s

/-- `hasProgressData` (lines 280-286): truthy province, any key at all in the
completion map (even one mapped to `false`), or any non-default scalar. -/
def hasProgressData (c : ContentRecord) : Bool :=
  !(c.province == "") || !c.completed.isEmpty ||
  c.industry != "general" || c.hiring != "no" || c.revenue != "gte30"

/-- Outcome of `SyncManager.handleUserSignIn` (`sync-manager.js` lines
75-105): present the migration dialog, or skip it and only sync down. -/
inductive SignInAction
  | showDialog
  | syncFromCloudOnly
deriving DecidableEq

/-- `handleUserSignIn` (lines 75-105): the migration dialog is shown exactly
when `enhancedStateManager.hasProgressData()` is true. -/
def handleUserSignIn (c : ContentRecord) : SignInAction :=
  if hasProgressData c then .showDialog else .syncFromCloudOnly

/-- Modelled from the spec: the claim's notion of "meaningful" local data —
some content field off its default, or some completion flag actually `true`.
Stated for comparison with `hasProgressData`, which the code uses. -/
def claimMeaningfulData (c : ContentRecord) : Bool :=
  c.province != "" || c.industry != "general" || c.hiring != "no" ||
  c.revenue != "gte30" || c.completed.any (fun p => p.2)

/-- `getMostRecent` (`sync-manager.js` lines 249-254).  Absent (`undefined`)
timestamps are `none`; the JS falsiness test `!t` on a timestamp is
`Option.isNone` (real epoch timestamps are nonzero).  Value falsiness for
these string-valued fields is the empty string. -/
def getMostRecent (localValue cloudValue : String)
    (localTime cloudTime : Option Nat) : String :=
  if localTime.isNone || cloudTime.isNone then
    jsOr localValue cloudValue
  else if localTime.getD 0 > cloudTime.getD 0 then localValue else cloudValue

/-- `getState` (`enhanced-state-manager.js` lines 398-401): the content
fields with `_meta` stripped by destructuring. -/
def getState (s : AppState) : ContentRecord := s.content

/-- `mergeLocalAndCloudData` in the branch where a cloud row exists
(`sync-manager.js` lines 194-239; merged-data construction 207-223).
`localState` is `enhancedStateManager.getState()`, which strips `_meta`, so
the source expression `localState._meta?.lastModified` evaluates to
`undefined`: the local timestamp passed to every `getMostRecent` call is
`none`. -/
def mergeLocalAndCloudData (s : AppState) (row : CloudRow) : ContentRecord :=
  let localState := getState s
  let localTime : Option Nat := none
  let cloudTime : Option Nat := some row.updated_at
  { province := getMostRecent localState.province row.province localTime cloudTime,
    industry := getMostRecent localState.industry row.industry localTime cloudTime,
    hiring := getMostRecent localState.hiring row.hiring localTime cloudTime,
    revenue := getMostRecent localState.revenue row.revenue localTime cloudTime,
    completed := mergeCompleted (row.completed.getD []) localState.completed }

/-- Result of `JSON.parse` applied to a string found in storage: a value of
the expected shape, or a parse failure (which in the source throws). -/
inductive ParseResult (α : Type)
  | ok (v : α)
  | bad
deriving DecidableEq

/-- The six localStorage keys the state manager uses; `none` models an absent
key (`getItem` returning null). -/
structure Storage where
  province : Option String
  industry : Option String
  hiring : Option String
  revenue : Option String
  completed : Option (ParseResult (List (String × Bool)))
  state_meta : Option (ParseResult SyncMeta)
deriving DecidableEq

/-- `JSON.parse(getItem(k) || dfltLiteral)`: an absent key parses the default
literal; a malformed stored string throws (`none`). -/
def parseStored {α : Type} (o : Option (ParseResult α)) (dflt : α) : Option α :=
  match o with
  | none => some dflt
  | some (.ok v) => some v
  | some .bad => none

/-- `loadLocalState` (lines 75-93): build the `saved` record field by field.
A throw from either `JSON.parse` lands in the catch, which returns the full
default state.  The spread `{ ...defaultState, ...saved }` is the identity
here because `saved` binds every key of the default. -/
def loadLocalState (now : Nat) (st : Storage) : AppState :=
  let d := loadDefaultState now
  match parseStored st.completed [], parseStored st.state_meta d.meta with
  | some comp, some meta =>
      { content := { province := jsOrOpt st.province "",
                     industry := jsOrOpt st.industry "general",
                     hiring := jsOrOpt st.hiring "no",
                     revenue := jsOrOpt st.revenue "gte30",
                     completed := comp },
        meta := meta }
  | _, _ => d

/-! ### Helper lemmas -/

theorem objLookup_append (l₁ l₂ : List (String × Bool)) (k : String) :
    objLookup (l₁ ++ l₂) k =
      match objLookup l₁ k with
      | some b => some b
      | none => objLookup l₂ k := by
  induction l₁ with
  | nil => rfl
  | cons p rest ih =>
      cases hpk : (p.1 == k)
      · simp only [objLookup, List.cons_append, List.find?, hpk] at *
        exact ih
      · simp only [objLookup, List.cons_append, List.find?, hpk]
        rfl

theorem isEmpty_false_iff (l : List (String × Bool)) : l.isEmpty = false ↔ l ≠ [] := by
  cases l <;> simp

/-- `hasProgressData` in propositional form. -/
theorem hasProgressData_iff (c : ContentRecord) :
    hasProgressData c = true ↔
      (c.province ≠ "" ∨ c.industry ≠ "general" ∨ c.hiring ≠ "no" ∨
       c.revenue ≠ "gte30" ∨ c.completed ≠ []) := by
  simp only [hasProgressData, Bool.or_eq_true, Bool.not_eq_true',
    beq_eq_false_iff_ne, bne_iff_ne, isEmpty_false_iff]
  tauto

/-! ### C1 — completion-map merge -/

/-- C1 counterexample: the claim says a `true` from either side wins, but with
local `a ↦ false` and remote `a ↦ true` the merged map gives `a ↦ false`: the
local binding shadows the cloud one in the spread. -/
theorem C1_true_does_not_win :
    objLookup (mergeCompleted [("a", true)] [("a", false)]) "a" = some false ∧
    objLookup (mergeCompleted [("a", true)] [("a", false)]) "a" ≠ some true := by
  constructor
  · rfl
  · intro h
    simp [mergeCompleted, objSpread, objLookup, List.find?] at h

/-- C1 (amended): the merged completion map has the union of both key sets,
and on a key present on both sides the local value wins regardless of the
booleans. -/
theorem C1_merge_is_local_biased_union (cloud loc : List (String × Bool))
    (k : String) :
    objLookup (mergeCompleted cloud loc) k =
      (match objLookup loc k with
       | some b => some b
       | none => objLookup cloud k) ∧
    (objLookup (mergeCompleted cloud loc) k).isSome =
      ((objLookup loc k).isSome || (objLookup cloud k).isSome) := by
  have h := objLookup_append loc cloud k
  refine ⟨h, ?_⟩
  rw [mergeCompleted, objSpread, h]
  cases objLookup loc k <;> simp

/-! ### C2 — sign-in sync-down overwrite -/

/-- C2: with a remote row present, the remote content overwrites the local
record exactly when the remote timestamp is strictly newer than the local
`lastModified` or the record has never synced, and `hasLocalChanges` is false
afterwards; otherwise the local content is untouched. -/
theorem C2_syncFromCloud_overwrite (s : AppState) (row : CloudRow) (now : Nat) :
    (row.updated_at > s.meta.lastModified ∨ s.meta.syncedAt = none →
      (syncFromCloudWithRow s row now).content =
        ⟨row.province, row.industry, row.hiring, row.revenue,
         row.completed.getD []⟩ ∧
      (syncFromCloudWithRow s row now).meta.hasLocalChanges = false) ∧
    (¬ row.updated_at > s.meta.lastModified → s.meta.syncedAt ≠ none →
      syncFromCloudWithRow s row now = s) := by
  constructor
  · intro h
    rw [syncFromCloudWithRow, if_pos h]
    exact ⟨rfl, rfl⟩
  · intro h1 h2
    rw [syncFromCloudWithRow, if_neg]
    rintro (hc | hc)
    · exact h1 hc
    · exact h2 hc

/-- C2 witness: both branches of the overwrite rule at concrete inputs. -/
theorem C2_syncFromCloud_overwrite_witness :
    ((syncFromCloudWithRow
        ⟨⟨"", "general", "no", "gte30", []⟩, ⟨100, 1, some 50, true⟩⟩
        ⟨"ON", "tech", "yes", "lt30", some [("a", true)], 200, 2⟩ 300).content =
      ⟨"ON", "tech", "yes", "lt30", [("a", true)]⟩ ∧
     (syncFromCloudWithRow
        ⟨⟨"", "general", "no", "gte30", []⟩, ⟨100, 1, some 50, true⟩⟩
        ⟨"ON", "tech", "yes", "lt30", some [("a", true)], 200, 2⟩ 300).meta.hasLocalChanges
        = false) ∧
    syncFromCloudWithRow
        ⟨⟨"AB", "general", "no", "gte30", []⟩, ⟨500, 1, some 50, true⟩⟩
        ⟨"ON", "tech", "yes", "lt30", some [("a", true)], 200, 2⟩ 300 =
      ⟨⟨"AB", "general", "no", "gte30", []⟩, ⟨500, 1, some 50, true⟩⟩ := by
  constructor
  · exact (C2_syncFromCloud_overwrite
      ⟨⟨"", "general", "no", "gte30", []⟩, ⟨100, 1, some 50, true⟩⟩
      ⟨"ON", "tech", "yes", "lt30", some [("a", true)], 200, 2⟩ 300).1
      (Or.inl (by decide))
  · exact (C2_syncFromCloud_overwrite
      ⟨⟨"AB", "general", "no", "gte30", []⟩, ⟨500, 1, some 50, true⟩⟩
      ⟨"ON", "tech", "yes", "lt30", some [("a", true)], 200, 2⟩ 300).2
      (by decide) (by decide)

/-! ### C3 — migration dialog condition -/

/-- C3 counterexample: a record whose only deviation from the defaults is a
completion key mapped to `false` is not "meaningful" in the claim's sense,
yet the code still shows the migration dialog for it. -/
theorem C3_dialog_without_meaningful_data :
    handleUserSignIn ⟨"", "general", "no", "gte30", [("step1", false)]⟩ =
      .showDialog ∧
    claimMeaningfulData ⟨"", "general", "no", "gte30", [("step1", false)]⟩ =
      false := by
  exact ⟨rfl, rfl⟩

/-- C3 (amended): the migration dialog is presented on sign-in iff some scalar
content field is off its default or the completion map is non-empty — any
completion key counts, even if every flag is `false`. -/
theorem C3_dialog_iff (c : ContentRecord) :
    handleUserSignIn c = .showDialog ↔
      (c.province ≠ "" ∨ c.industry ≠ "general" ∨ c.hiring ≠ "no" ∨
       c.revenue ≠ "gte30" ∨ c.completed ≠ []) := by
  rw [← hasProgressData_iff]
  unfold handleUserSignIn
  by_cases h : hasProgressData c
  · simp [h]
  · simp [h]

/-! ### C4 — timestamp use in the scalar merge -/

/-- C4: at the spec's own merge-conflict example — local province "ON" with
`lastModified` 100, remote province "BC" with `updated_at` 200 — the merge
produces "ON", not the strictly more recent "BC": `getState()` strips
`_meta`, so the local timestamp read by the merge is always `undefined` and
`getMostRecent` falls back to preferring the truthy local value. -/
theorem C4_merge_ignores_timestamps :
    (mergeLocalAndCloudData
        ⟨⟨"ON", "general", "no", "gte30", []⟩, ⟨100, 1, some 50, true⟩⟩
        ⟨"BC", "general", "no", "gte30", some [], 200, 3⟩).province = "ON" ∧
    (mergeLocalAndCloudData
        ⟨⟨"ON", "general", "no", "gte30", []⟩, ⟨100, 1, some 50, true⟩⟩
        ⟨"BC", "general", "no", "gte30", some [], 200, 3⟩).province ≠ "BC" := by
  exact ⟨rfl, by decide⟩

/-! ### C5 — loading persisted state -/

/-- C5 counterexample: with province "ON" stored and a malformed completion
map, `loadLocalState` does not keep "ON" — the catch discards every stored
field and returns the full default record. -/
theorem C5_malformed_completed_discards_other_fields :
    (loadLocalState 0
        ⟨some "ON", none, none, none, some .bad, none⟩).content.province = "" ∧
    (loadLocalState 0
        ⟨some "ON", none, none, none, some .bad, none⟩).content.province ≠ "ON" := by
  exact ⟨rfl, by decide⟩

/-- C5 (amended): `load` always returns a record and missing keys are
individually defaulted, but malformed JSON for the completion map (or the
metadata) makes the whole load fall back to the full default state — the
completion map is empty and the other stored values are discarded too. -/
theorem C5_load_spec (now : Nat) (st : Storage) :
    (st.completed = some .bad → loadLocalState now st = loadDefaultState now) ∧
    (st.state_meta = some .bad → loadLocalState now st = loadDefaultState now) ∧
    (∀ comp meta, st.completed = some (.ok comp) →
      st.state_meta = some (.ok meta) →
      loadLocalState now st =
        ⟨⟨jsOrOpt st.province "", jsOrOpt st.industry "general",
          jsOrOpt st.hiring "no", jsOrOpt st.revenue "gte30", comp⟩, meta⟩) ∧
    (st.completed = none → st.state_meta = none →
      loadLocalState now st =
        ⟨⟨jsOrOpt st.province "", jsOrOpt st.industry "general",
          jsOrOpt st.hiring "no", jsOrOpt st.revenue "gte30", []⟩,
         (loadDefaultState now).meta⟩) := by
  refine ⟨fun h => ?_, fun h => ?_, fun comp meta h1 h2 => ?_, fun h1 h2 => ?_⟩
  · rw [loadLocalState, h]
    rcases parseStored st.state_meta (loadDefaultState now).meta with _ | m <;> rfl
  · rw [loadLocalState, h]
    rcases parseStored st.completed ([] : List (String × Bool)) with _ | c <;> rfl
  · rw [loadLocalState, h1, h2]
    rfl
  · rw [loadLocalState, h1, h2]
    rfl

/-- C5 witness: the malformed-map fallback and the all-parses-succeed case at
concrete storages. -/
theorem C5_load_spec_witness :
    loadLocalState 7 ⟨some "ON", none, none, none, some .bad, none⟩ =
      loadDefaultState 7 ∧
    loadLocalState 7
        ⟨some "ON", none, some "yes", none, some (.ok [("a", true)]),
         some (.ok ⟨40, 2, some 30, true⟩)⟩ =
      ⟨⟨"ON", "general", "yes", "gte30", [("a", true)]⟩, ⟨40, 2, some 30, true⟩⟩ := by
  constructor
  · exact (C5_load_spec 7 ⟨some "ON", none, none, none, some .bad, none⟩).1 rfl
  · have h := (C5_load_spec 7
      ⟨some "ON", none, some "yes", none, some (.ok [("a", true)]),
       some (.ok ⟨40, 2, some 30, true⟩)⟩).2.2.1 [("a", true)]
      ⟨40, 2, some 30, true⟩ rfl rfl
    rw [h]
    rfl

/-! ### C6 — debounced uploads -/

/-- A content-field mutation through the public setters
(`enhanced-state-manager.js` lines 337-383). -/
inductive Mutation
  | setProvince (v : String)
  | setIndustry (v : String)
  | setHiring (v : String)
  | setRevenue (v : String)
  | setStepCompleted (k : String) (b : Bool)
deriving DecidableEq

/-- Effect of a setter on the content fields (each setter assigns its field,
`setStepCompleted` assigns into the completion map). -/
def applyMutation (c : ContentRecord) : Mutation → ContentRecord
  | .setProvince v => { c with province := v }
  | .setIndustry v => { c with industry := v }
  | .setHiring v => { c with hiring := v }
  | .setRevenue v => { c with revenue := v }
  | .setStepCompleted k b => { c with completed := objSet c.completed k b }

/-- `scheduleSyncToCloud` (lines 253-263): `clearTimeout` any pending timer
and arm a single new one `delay` ms from `now`.  The previous handle is
discarded unconditionally. -/
def scheduleSyncToCloud (_pending : Option Nat) (now delay : Nat) : Option Nat :=
  some (now + delay)

/-- Net debounce delay one mutation leaves behind: every setter runs
`persistLocal`, which schedules with the 2000 ms default; `setStepCompleted`
then reschedules with 500 ms only when the step was just completed
(`completed` truthy) and the user is authenticated (lines 374-383). -/
def mutationDelay (isAuth : Bool) : Mutation → Nat
  | .setStepCompleted _ b => if b && isAuth then 500 else 2000
  | _ => 2000

/-- Content plus the single `syncTimeout` slot (fire time of the pending
upload, if any). -/
structure DebounceState where
  content : ContentRecord
  pending : Option Nat
deriving DecidableEq

/-- Apply one timestamped mutation: persist the content change and replace
the pending upload timer with one armed from this mutation. -/
def stepTimed (isAuth : Bool) (s : DebounceState) (tm : Nat × Mutation) :
    DebounceState :=
  { content := applyMutation s.content tm.2,
    pending := scheduleSyncToCloud s.pending tm.1 (mutationDelay isAuth tm.2) }

/-- A burst of timestamped mutations processed in order. -/
def runMutations (isAuth : Bool) (s : DebounceState)
    (ms : List (Nat × Mutation)) : DebounceState :=
  ms.foldl (stepTimed isAuth) s

theorem runMutations_content (isAuth : Bool) (ms : List (Nat × Mutation))
    (s : DebounceState) :
    (runMutations isAuth s ms).content =
      ms.foldl (fun c tm => applyMutation c tm.2) s.content := by
  induction ms generalizing s with
  | nil => rfl
  | cons tm rest ih =>
      rw [runMutations, List.foldl_cons, List.foldl_cons, ← runMutations]
      exact ih _

/-- C6 counterexample: the claim says either boolean value of a
step-completion toggle debounces at 500 ms, but unchecking a step
(`setStepCompleted _ false`) leaves the 2000 ms default even when
authenticated. -/
theorem C6_unchecking_is_slow :
    mutationDelay true (.setStepCompleted "structure" false) = 2000 ∧
    mutationDelay true (.setStepCompleted "structure" false) ≠ 500 := by
  decide

/-- C6 (amended): a step completion set to `true` while authenticated
debounces at 500 ms; unchecking a step, toggling while unauthenticated, and
every other content-field mutation debounce at 2000 ms.  Each mutation
cancels and replaces the single pending timer, so after any burst exactly one
timer remains, armed from the last mutation's time and delay, and the upload
it will fire carries the state as of the last mutation. -/
theorem C6_debounce_spec (isAuth : Bool) (s : DebounceState)
    (ms : List (Nat × Mutation)) (t : Nat) (m : Mutation) :
    (runMutations isAuth s (ms ++ [(t, m)])).pending =
      some (t + mutationDelay isAuth m) ∧
    (runMutations isAuth s (ms ++ [(t, m)])).content =
      (ms ++ [(t, m)]).foldl (fun c tm => applyMutation c tm.2) s.content ∧
    (∀ k b, mutationDelay true (.setStepCompleted k b) =
      if b then 500 else 2000) ∧
    (∀ k b, mutationDelay false (.setStepCompleted k b) = 2000) ∧
    (∀ v, mutationDelay isAuth (.setProvince v) = 2000) := by
  refine ⟨?_, runMutations_content isAuth (ms ++ [(t, m)]) s, ?_, ?_, fun v => rfl⟩
  · rw [runMutations, List.foldl_append]
    rfl
  · intro k b
    cases b <;> rfl
  · intro k b
    cases b <;> rfl

/-! ### C7 — retry policy -/

def maxRetries : Nat := 3

def retryDelayMs : Nat := 5000

/-- Pending retry timers as a sorted list of fire times; a timer with an
equal deadline goes after the ones already scheduled, matching the timer
queue's FIFO order for equal deadlines. -/
def insertTimer (t : Nat) : List Nat → List Nat
  | [] => [t]
  | x :: xs => if x ≤ t then x :: insertTimer t xs else t :: x :: xs

/-- `retryAttempts` plus the pending retry timers. -/
structure RetryState where
  attempts : Nat
  timers : List Nat
deriving DecidableEq

/-- `queueRetrySync` (`sync-manager.js` lines 301-317): while under
`maxRetries`, increment `retryAttempts` and schedule a retry
`retryDelay * retryAttempts` ms ahead (the product uses the already
incremented counter). -/
def queueRetrySync (now : Nat) (s : RetryState) : RetryState :=
  if s.attempts < maxRetries then
    { attempts := s.attempts + 1,
      timers := insertTimer (now + retryDelayMs * (s.attempts + 1)) s.timers }
  else s

/-- A failing `syncToCloud` emits two `error` sync events — one from
`setSyncStatus('error')` and one from the explicit
`notifySyncListeners('error', ...)` in its catch
(`enhanced-state-manager.js` lines 239-243) — and `handleSyncEvent` calls
`queueRetrySync` once per event while online (`sync-manager.js` lines
286-296). -/
def errorEventsOfFailedSync (now : Nat) (s : RetryState) : RetryState :=
  queueRetrySync now (queueRetrySync now s)

/-- Fire the earliest pending retry timer (lines 305-315): the awaited
`forceSyncToCloud` fails, emitting its two error events while
`retryAttempts` still holds the pre-reset value; then the callback resets
the counter to 0 whenever it reached `maxRetries`.  Returns the fire time
and the next state, or `none` when no timer is pending. -/
def fireNextRetry (s : RetryState) : Option (Nat × RetryState) :=
  match s.timers with
  | [] => none
  | t :: rest =>
      let s' := errorEventsOfFailedSync t { attempts := s.attempts, timers := rest }
      some (t, if maxRetries ≤ s'.attempts
               then { attempts := 0, timers := s'.timers } else s')

/-- Fire up to `n` pending retries in deadline order, collecting the fire
times of the automatic retry attempts actually issued. -/
def retryRun : Nat → RetryState → List Nat
  | 0, _ => []
  | n + 1, s =>
      match fireNextRetry s with
      | none => []
      | some (t, s') => t :: retryRun n s'

/-- Fire times of the automatic retry attempts when a single upload fails at
time 0 and every retry fails too, following up to `n` timer firings — no
other triggering event occurs in this run. -/
def retryTimes (n : Nat) : List Nat :=
  retryRun n (errorEventsOfFailedSync 0 { attempts := 0, timers := [] })

/-- C7: after one failed upload at t = 0 with every retry failing, the code
issues a 4th automatic retry at t = 15000 ms — and keeps going — with no new
triggering event: each failure double-counts through its two error events,
and the retry callback resets `retryAttempts` to 0 while another retry is
still pending, re-arming the loop. -/
theorem C7_fourth_automatic_retry :
    retryTimes 4 = [5000, 10000, 15000, 20000] ∧
    (retryTimes 8).length = 8 := by
  decide

/-! ### C8 / C10 — import and export -/

/-- The recognized content fields of an import payload object; `none` means
the property is absent (`hasOwnProperty` false).  Unrecognized property
names travel in `extra`; `importProgress` never reads them, so their values
are irrelevant and omitted from the model. -/
structure ImportFields where
  province : Option String
  industry : Option String
  hiring : Option String
  revenue : Option String
  completed : Option (List (String × Bool))
  extra : List String
deriving DecidableEq

/-- An `importProgress` argument as JS sees it: `null`/`undefined` (on which
`hasOwnProperty` throws a TypeError), some other primitive (which has no own
properties), or an object. -/
inductive ImportPayload
  | nullish
  | prim
  | obj (f : ImportFields)
deriving DecidableEq

/-- `importProgress` (`enhanced-state-manager.js` lines 439-474): filter the
five known keys, merge them over the state, restamp the metadata; the throw
from `hasOwnProperty` on null/undefined is caught and reported as `false`,
modelled as `none`.  The follow-up `persistLocal`/`syncToCloud` calls leave
the content fields as merged. -/
def importProgress (s : AppState) (now : Nat) : ImportPayload → Option AppState
  | .nullish => none
  | .prim =>
      some { content := s.content,
             meta := { s.meta with lastModified := now, hasLocalChanges := true } }
  | .obj f =>
      some { content := { province := f.province.getD s.content.province,
                          industry := f.industry.getD s.content.industry,
                          hiring := f.hiring.getD s.content.hiring,
                          revenue := f.revenue.getD s.content.revenue,
                          completed := f.completed.getD s.content.completed },
             meta := { s.meta with lastModified := now, hasLocalChanges := true } }

/-- `exportProgress` (lines 480-485): the `getState()` content plus the
`_exportedAt` and `_version` metadata properties, which are not content-field
names. -/
def exportProgress (s : AppState) : ImportPayload :=
  .obj { province := some (getState s).province,
         industry := some (getState s).industry,
         hiring := some (getState s).hiring,
         revenue := some (getState s).revenue,
         completed := some (getState s).completed,
         extra := ["_exportedAt", "_version"] }

/-- C8 counterexample: a non-object, non-null payload (e.g. the number 42) is
not rejected — `hasOwnProperty` on a boxed primitive simply finds none of the
five keys, so `importProgress` returns `true`, not the `false` the claim
requires for a malformed payload. -/
theorem C8_nonobject_not_rejected :
    importProgress (loadDefaultState 0) 1 .prim ≠ none ∧
    (importProgress (loadDefaultState 0) 1 .prim).map (fun r => r.content) =
      some defaultContent := by
  decide

/-- C8 (amended): a null/undefined payload throws into the catch and returns
`false` with the state untouched; any other non-object payload is accepted
(returns `true`) with the content unchanged; an object payload contributes
exactly the five known fields — unrecognized fields are never read — and the
content is either fully merged or untouched, never partially applied. -/
theorem C8_import_spec (s : AppState) (now : Nat) :
    importProgress s now .nullish = none ∧
    (importProgress s now .prim).map (fun r => r.content) = some s.content ∧
    (∀ f, (importProgress s now (.obj f)).map (fun r => r.content) =
      some ⟨f.province.getD s.content.province,
            f.industry.getD s.content.industry,
            f.hiring.getD s.content.hiring,
            f.revenue.getD s.content.revenue,
            f.completed.getD s.content.completed⟩) := by
  exact ⟨rfl, rfl, fun f => rfl⟩

/-- C10: importing an export succeeds and restores every content field; the
snapshot's `_exportedAt`/`_version` extras are dropped, and `getState` of the
resulting state is exactly the original content. -/
theorem C10_export_import_roundtrip (s : AppState) (now : Nat) :
    (importProgress s now (exportProgress s)).isSome = true ∧
    (importProgress s now (exportProgress s)).map getState =
      some (getState s) := by
  exact ⟨rfl, rfl⟩

/-! ### C9 — reset -/

/-- Server response to `saveUserProgress`: the upserted row's timestamp (as
epoch milliseconds) and incremented version. -/
structure SaveResult where
  updated_at : Nat
  version : Nat
deriving DecidableEq

/-- Outcome of the remote upsert call. -/
inductive Transport
  | ok (r : SaveResult)
  | fail
deriving DecidableEq

/-- Storage after `removeItem` on all six keys (`reset`, lines 418-423). -/
def emptyStorage : Storage := ⟨none, none, none, none, none, none⟩

/-- `persistLocal` (lines 98-115): stamp the metadata (current time, dirty
flag) and write every field to localStorage.  It also sets `pendingChanges`
and arms the debounce timer; its one modelled caller, `syncToCloud`, clears
`pendingChanges` again before that timer can fire, so the timer fires no
upload. -/
def persistLocal (s : AppState) (now : Nat) : AppState × Storage :=
  let s' : AppState :=
    { content := s.content,
      meta := { s.meta with lastModified := now, hasLocalChanges := true } }
  (s', { province := some s'.content.province,
         industry := some s'.content.industry,
         hiring := some s'.content.hiring,
         revenue := some s'.content.revenue,
         completed := some (.ok s'.content.completed),
         state_meta := some (.ok s'.meta) })

/-- `syncToCloud` (lines 201-247): unless unauthenticated or an upload is
already in flight, issue exactly one upsert carrying the current content; on
success take `updated_at`/`version` from the response, run `persistLocal`
(which re-stamps `lastModified` and persists, with the dirty flag moment of
`true` landing in storage), then clear the in-memory `hasLocalChanges`; on
failure state and storage are untouched.  Returns
(state, storage, upserts issued, success). -/
def syncToCloud (s : AppState) (st : Storage) (isAuth syncInProgress : Bool)
    (tr : Transport) (now : Nat) :
    AppState × Storage × List ContentRecord × Bool :=
  if !isAuth || syncInProgress then (s, st, [], false)
  else
    match tr with
    | .fail => (s, st, [s.content], false)
    | .ok r =>
        let s1 : AppState :=
          { content := s.content,
            meta := { lastModified := r.updated_at, version := r.version,
                      syncedAt := now, hasLocalChanges := false } }
        let p := persistLocal s1 now
        let s2 : AppState :=
          { content := p.1.content,
            meta := { p.1.meta with hasLocalChanges := false } }
        (s2, p.2, [s.content], true)

/-- `reset` (lines 414-432): default the in-memory state, remove the six
localStorage keys, and, when authenticated, push the state with
`syncToCloud`.  Returns (state, storage, upserts issued). -/
def reset (isAuth syncInProgress : Bool) (tr : Transport) (now : Nat) :
    AppState × Storage × List ContentRecord :=
  let s := loadDefaultState now
  let st := emptyStorage
  if isAuth then
    let r := syncToCloud s st true syncInProgress tr now
    (r.1, r.2.1, r.2.2.1)
  else (s, st, [])

/-- C9: `reset` while authenticated (with no upload already in flight) leaves
the in-memory record at the default values, clears the persisted fields, and
issues exactly one upsert whose content is the default record; on a
successful upsert the follow-up `persistLocal` re-persists those same
default values. -/
theorem C9_reset_propagates (tr : Transport) (now : Nat) :
    (reset true false tr now).1.content = defaultContent ∧
    (reset true false tr now).2.2 = [defaultContent] ∧
    ((reset true false tr now).2.1 = emptyStorage ∨
     ((reset true false tr now).2.1.province = some "" ∧
      (reset true false tr now).2.1.industry = some "general" ∧
      (reset true false tr now).2.1.hiring = some "no" ∧
      (reset true false tr now).2.1.revenue = some "gte30" ∧
      (reset true false tr now).2.1.completed = some (.ok []))) := by
  cases tr with
  | fail => exact ⟨rfl, rfl, Or.inl rfl⟩
  | ok r => exact ⟨rfl, rfl, Or.inr ⟨rfl, rfl, rfl, rfl, rfl⟩⟩

end BizGuide
